import Mathlib

/-!
# Verification of `the_snake.py`

A shallow embedding of the snake game in `src/the_snake.py` and proofs of the
specification's claims about it.

Modelling conventions:
* A board cell (a Python 2-tuple of ints) is `Cell := Int × Int`; Python's `%`
  on a positive modulus agrees with Lean's `Int.emod` (result in `[0, m)`).
* Randomness (`randint`, `choice`) is modelled by threading explicit draw
  values: `randint(0, n)` applied to a raw draw `r : Nat` yields `r % (n+1)`,
  and `choice` over a 4-element list is indexing by `r % 4`.  A whole stream of
  draws is a function `Nat → Nat`.
* The unbounded `while True` rejection loop of `Apple.randomize_position` is
  given a fuel parameter and returns `Option Cell`; `none` means the loop did
  not finish within `fuel` resampling rounds.
* Rendering (`draw`, `screen.fill`), the clock, and `pygame` event plumbing
  have no effect on game state and are not modelled; a `KEYDOWN` event is
  modelled by the `Key` type (`other` covers every key the handler ignores).
  A `QUIT` event terminates the process and so ends the trace.
-/

/-- Constant `SCREEN_WIDTH` from the source. -/
def SCREEN_WIDTH : Int := 640

/-- Constant `SCREEN_HEIGHT` from the source. -/
def SCREEN_HEIGHT : Int := 480

/-- Constant `GRID_SIZE` from the source. -/
def GRID_SIZE : Int := 20

/-- Constant `GRID_WIDTH = SCREEN_WIDTH // GRID_SIZE = 32`. -/
def GRID_WIDTH : Int := SCREEN_WIDTH / GRID_SIZE

/-- Constant `GRID_HEIGHT = SCREEN_HEIGHT // GRID_SIZE = 24`. -/
def GRID_HEIGHT : Int := SCREEN_HEIGHT / GRID_SIZE

/-- A board position, as the Python 2-tuple of ints. -/
abbrev Cell : Type := Int × Int

/-- Direction `UP = (0, -1)`. -/
def UP : Cell := (0, -1)

/-- Direction `DOWN = (0, 1)`. -/
def DOWN : Cell := (0, 1)

/-- Direction `LEFT = (-1, 0)`. -/
def LEFT : Cell := (-1, 0)

/-- Direction `RIGHT = (1, 0)`. -/
def RIGHT : Cell := (1, 0)

/-- An RGB colour constant (`tuple` of ints in the source). -/
abbrev Color : Type := Nat × Nat × Nat

/-- Colour `APPLE_COLOR = (255, 0, 0)`. -/
def APPLE_COLOR : Color := (255, 0, 0)

/-- Colour `SNAKE_COLOR = (0, 255, 0)`. -/
def SNAKE_COLOR : Color := (0, 255, 0)

/-- The centre cell `(SCREEN_WIDTH // 2, SCREEN_HEIGHT // 2)` that
`GameObject.__init__` assigns to `self.position`. -/
def centerCell : Cell := (SCREEN_WIDTH / 2, SCREEN_HEIGHT / 2)

/-- Python `randint(lo, hi)` (inclusive bounds) applied to a raw draw `r`. -/
def randintR (lo hi : Nat) (r : Nat) : Nat := lo + r % (hi - lo + 1)

/-- The first candidate drawn by `Apple.randomize_position`:
`((randint(0, GRID_WIDTH) * GRID_SIZE) % SCREEN_WIDTH,
  (randint(0, GRID_HEIGHT) * GRID_SIZE) % SCREEN_HEIGHT)`. -/
def initialCandidate (r1 r2 : Nat) : Cell :=
  (((randintR 0 32 r1 * 20 : Nat) : Int) % SCREEN_WIDTH,
   ((randintR 0 24 r2 * 20 : Nat) : Int) % SCREEN_HEIGHT)

/-- The candidate drawn inside the `while True` loop of
`Apple.randomize_position`:
`(randint(0, GRID_HEIGHT) * GRID_SIZE, randint(0, GRID_HEIGHT) * GRID_SIZE)`
— note the source uses `GRID_HEIGHT` for both axes and applies no modulus. -/
def resampleCandidate (r1 r2 : Nat) : Cell :=
  ((randintR 0 24 r1 * 20 : Nat), ((randintR 0 24 r2 * 20 : Nat) : Int))

/-- The `while True` loop of `Apple.randomize_position`: return the current
candidate if it is not in `snake_positions`, otherwise redraw.  `stream i` and
`stream (i+1)` are the next two raw `randint` draws; `fuel` bounds the number
of redraws, `none` meaning the loop has not returned within that bound. -/
def randomizeLoop (snake_positions : List Cell) (stream : Nat → Nat) :
    Nat → Nat → Cell → Option Cell
  | _, 0, cur =>
      if cur ∉ snake_positions then some cur else none
  | i, fuel + 1, cur =>
      if cur ∉ snake_positions then some cur
      else randomizeLoop snake_positions stream (i + 2) fuel
        (resampleCandidate (stream i) (stream (i + 1)))

/-- Method `Apple.randomize_position(snake_positions)`: draw the initial candidate
from `stream 0`, `stream 1`, then run the rejection loop. -/
def randomize_position (snake_positions : List Cell) (stream : Nat → Nat)
    (fuel : Nat) : Option Cell :=
  randomizeLoop snake_positions stream 2 fuel
    (initialCandidate (stream 0) (stream 1))

/-- The mutable state of a `Snake` object.  `position` is the field set by
`GameObject.__init__` (the centre cell, never reassigned on a `Snake`). -/
structure Snake where
  position : Cell
  body_color : Color
  length : Nat
  positions : List Cell
  direction : Cell
  next_direction : Option Cell
  last : Option Cell
  deriving DecidableEq, Repr

/-- Constructor `Snake.__init__`: length 1, a single segment at the centre, direction
`RIGHT`, no pending direction, no erased segment.  The constructor draws no
random values. -/
def Snake.initial : Snake :=
  { position := centerCell
    body_color := SNAKE_COLOR
    length := 1
    positions := [centerCell]
    direction := RIGHT
    next_direction := none
    last := none }

/-- Method `Snake.get_head_position`: `self.positions[0]`.  The list is never empty
in any state the program builds; `headI` supplies a junk default otherwise. -/
def Snake.get_head_position (s : Snake) : Cell := s.positions.headI

/-- Method `Snake.update_direction`: apply the pending direction if there is one and
clear it.  (All four direction tuples are truthy in Python, so `if
self.next_direction:` is exactly a `None` test here.) -/
def Snake.update_direction (s : Snake) : Snake :=
  match s.next_direction with
  | some d => { s with direction := d, next_direction := none }
  | none => s

/-- Method `Snake.move`: prepend the wrapped next head cell; if the list is now
longer than `self.length`, record the final cell in `self.last` and pop it. -/
def Snake.move (s : Snake) : Snake :=
  let head := s.get_head_position
  let next_position : Cell :=
    ((head.1 + GRID_SIZE * s.direction.1) % SCREEN_WIDTH,
     (head.2 + GRID_SIZE * s.direction.2) % SCREEN_HEIGHT)
  let ps := next_position :: s.positions
  if ps.length > s.length then
    { s with positions := ps.dropLast, last := some (ps.getLastD (0, 0)) }
  else
    { s with positions := ps }

/-- Python `choice([UP, DOWN, RIGHT, LEFT])` applied to a raw draw `r`. -/
def choiceDirection (r : Nat) : Cell := [UP, DOWN, RIGHT, LEFT].getD (r % 4) UP

/-- Method `Snake.reset`: length 1, a single segment at `self.position`, and a
direction drawn from the four cardinal options.  The source does not touch
`next_direction` or `last` here (and `screen.fill` is rendering only). -/
def Snake.reset (s : Snake) (r : Nat) : Snake :=
  { s with length := 1
           positions := [s.position]
           direction := choiceDirection r }

/-- A `KEYDOWN` event's key, as far as `handle_keys` distinguishes them. -/
inductive Key where
  | up | down | left | right | other
  deriving DecidableEq, Repr

/-- One `KEYDOWN` branch of `handle_keys`: an arrow key sets the pending
direction unless the current direction is its exact reverse. -/
def handle_key (g : Snake) (k : Key) : Snake :=
  match k with
  | .up => if g.direction ≠ DOWN then { g with next_direction := some UP } else g
  | .down => if g.direction ≠ UP then { g with next_direction := some DOWN } else g
  | .left => if g.direction ≠ RIGHT then { g with next_direction := some LEFT } else g
  | .right => if g.direction ≠ LEFT then { g with next_direction := some RIGHT } else g
  | .other => g

/-- Function `handle_keys`: fold the branch above over this tick's `KEYDOWN` events
(a `QUIT` event exits the process, ending the trace). -/
def handle_keys (g : Snake) (ks : List Key) : Snake := ks.foldl handle_key g

/-- The snake after the input/direction/move phase of one loop iteration of
`main`: `handle_keys`, then `update_direction`, then `move`. -/
def moveStage (s : Snake) (ks : List Key) : Snake :=
  ((handle_keys s ks).update_direction).move

/-- The self-collision check of `main`:
`if snake.get_head_position() in snake.positions[1:-1]: snake.reset()`.
The slice `[1:-1]` drops both the head and the final (tail) cell. -/
def collideStage (s : Snake) (apple : Cell) (r : Nat) : Snake × Cell :=
  if s.get_head_position ∈ (s.positions.drop 1).dropLast then (s.reset r, apple)
  else (s, apple)

/-- One full state update of the `while True` body of `main` (input, direction,
move, eat check, self-collision check; rendering omitted).  `rngA` supplies the
`randint` draws of a relocation, `fuel` bounds its rejection loop, and `rngR`
supplies the `choice` draw of a reset.  The two `if`s are sequential in the
source (no `elif`), so an eating tick still runs the collision check. -/
def tick (s : Snake) (apple : Cell) (ks : List Key) (rngA : Nat → Nat)
    (fuel : Nat) (rngR : Nat) : Option (Snake × Cell) :=
  let s3 := moveStage s ks
  if s3.get_head_position = apple then
    let s4 : Snake := { s3 with length := s3.length + 1 }
    match randomize_position s4.positions rngA fuel with
    | none => none
    | some c => some (collideStage s4 c rngR)
  else
    some (collideStage s3 apple rngR)

/-- The states `main` can reach: the initial snake with an apple produced by
`Apple.__init__` (a `randomize_position` call on the snake's body), closed
under `tick`. -/
inductive Reachable : Snake × Cell → Prop where
  | init (stream : Nat → Nat) (fuel : Nat) (c : Cell)
      (h : randomize_position Snake.initial.positions stream fuel = some c) :
      Reachable (Snake.initial, c)
  | step {g g' : Snake × Cell} (ks : List Key) (rngA : Nat → Nat)
      (fuel : Nat) (rngR : Nat) (hg : Reachable g)
      (h : tick g.1 g.2 ks rngA fuel rngR = some g') : Reachable g'

/-- The reverse of a direction vector. -/
def oppositeDir (d : Cell) : Cell := (-d.1, -d.2)

/-- The pending direction, when present, is not the exact reverse of the
current active direction. -/
def dirOk (s : Snake) : Prop :=
  match s.next_direction with
  | none => True
  | some d => d ≠ oppositeDir s.direction

instance (s : Snake) : Decidable (dirOk s) := by
  unfold dirOk; exact match s.next_direction with
  | none => inferInstanceAs (Decidable True)
  | some d => inferInstanceAs (Decidable (d ≠ oppositeDir s.direction))

/-- The direction an arrow key requests in `handle_keys`. -/
def keyDirection : Key → Option Cell
  | .up => some UP
  | .down => some DOWN
  | .left => some LEFT
  | .right => some RIGHT
  | .other => none

/-- A length-5 snake one step from running head-first into its own tail:
`RIGHT` from `(0, 0)` lands on the tail cell `(20, 0)` once the old tail
`(40, 0)` is popped. -/
def tailTrapSnake : Snake :=
  { Snake.initial with
      length := 5
      positions := [((0 : Int), (0 : Int)), (0, 20), (20, 20), (20, 0), (40, 0)] }

/-- The snake `tailTrapSnake` becomes after one `move()` (computed by hand for
the counterexample below): its head `(20, 0)` coincides with its tail. -/
def tailTrapMoved : Snake :=
  { Snake.initial with
      length := 5
      positions := [((20 : Int), (0 : Int)), (0, 0), (0, 20), (20, 20), (20, 0)]
      last := some ((40 : Int), (0 : Int)) }

/-- A length-6 snake one step from a genuine `positions[1:-1]` collision:
`RIGHT` from `(0, 0)` lands on `(20, 0)`, an interior body cell. -/
def neckTrapSnake : Snake :=
  { Snake.initial with
      length := 6
      positions := [((0 : Int), (0 : Int)), (0, 20), (20, 20), (20, 0), (40, 0),
        (40, 20)] }

/-- Every cell the resampling branch of `Apple.randomize_position` can ever
produce: `(20Â·i, 20Â·j)` for `i, j ≤ 24` (the branch scales two
`randint(0, GRID_HEIGHT)` draws and applies no modulus).  Used as an occupied
set: it leaves board cells with `x ∈ {500, ..., 620}` free, yet the loop
can never draw one of them. -/
def blockedSet : List Cell :=
  (List.range 25).flatMap fun i =>
    (List.range 25).map fun j => (((20 * i : Nat) : Int), ((20 * j : Nat) : Int))

/-- A draw stream whose initial candidate is `(0, 0)` and whose first resample
is `(0, 480)`: draws `0, 0, 0, 24`. -/
def outOfBoundsStream : Nat → Nat := fun i => if i = 3 then 24 else 0

/-- A snake with a pending direction and a recorded erasure target, to probe
what `reset` does to those two fields. -/
def resetProbe : Snake :=
  { Snake.initial with
      next_direction := some UP
      last := some ((0 : Int), (0 : Int)) }

/-- Any cell the rejection loop returns is outside the occupied set it was
given: the loop only ever returns through its `not in snake_positions`
branch. -/
theorem randomizeLoop_not_mem (snake_positions : List Cell)
    (stream : Nat → Nat) :
    ∀ (fuel i : Nat) (cur c : Cell),
      randomizeLoop snake_positions stream i fuel cur = some c →
      c ∉ snake_positions := by
  intro fuel
  induction fuel with
  | zero =>
      intro i cur c h
      by_cases hm : cur ∉ snake_positions
      · simp [randomizeLoop, hm] at h
        subst h; exact hm
      · simp [randomizeLoop, hm] at h
  | succ n ih =>
      intro i cur c h
      by_cases hm : cur ∉ snake_positions
      · simp [randomizeLoop, hm] at h
        subst h; exact hm
      · simp only [randomizeLoop, if_neg hm] at h
        exact ih (i + 2) _ c h

/-- C3: for every occupied-set input, the cell `Apple.randomize_position`
returns (when its loop finishes) is not equal to any cell of that occupied
set; hence the food's position immediately after any relocation, including
the one in `Apple.__init__`, avoids the snake's body. -/
theorem C3_randomize_disjoint (snake_positions : List Cell)
    (stream : Nat → Nat) (fuel : Nat) (c : Cell)
    (h : randomize_position snake_positions stream fuel = some c) :
    c ∉ snake_positions :=
  randomizeLoop_not_mem snake_positions stream fuel 2
    (initialCandidate (stream 0) (stream 1)) c h

/-- Witness for C3: a concrete relocation over the occupied set `[(0, 0)]`
returns `(0, 20)`, which indeed avoids the set. -/
theorem C3_randomize_disjoint_witness :
    ((0 : Int), (20 : Int)) ∉ [((0 : Int), (0 : Int))] :=
  C3_randomize_disjoint [((0 : Int), (0 : Int))] (fun i => i) 1
    ((0 : Int), (20 : Int)) (by decide)

/-- C2: on every `move()`, the new head cell is the old head plus the
direction scaled by the cell size, wrapped independently per axis modulo the
board width and height, and it is prepended to the position sequence (whose
tail cell is popped exactly when the list would exceed the target length). -/
theorem C2_move_head_wrap (s : Snake) (hne : s.positions ≠ []) :
    (s.move).positions =
      ((s.positions.headI.1 + s.direction.1 * GRID_SIZE) % SCREEN_WIDTH,
       (s.positions.headI.2 + s.direction.2 * GRID_SIZE) % SCREEN_HEIGHT) ::
      (if s.positions.length + 1 > s.length then s.positions.dropLast
       else s.positions) := by
  rcases hps : s.positions with _ | ⟨hd, tl⟩
  · exact absurd hps hne
  · unfold Snake.move Snake.get_head_position
    rw [hps]
    by_cases hlen : (hd :: tl).length + 1 > s.length
    · rw [if_pos (by simpa using hlen)]
      simp only [List.dropLast, mul_comm]
      rw [if_pos (by simpa using hlen)]
    · rw [if_neg (by simpa using hlen)]
      simp only [mul_comm]
      rw [if_neg (by simpa using hlen)]

/-- Witness for C2: a head at `(620, 0)` moving `RIGHT` on the 640-wide board
wraps to `(0, 0)` (the snake here has length 1, so its old cell is popped). -/
theorem C2_move_head_wrap_witness :
    (Snake.move { Snake.initial with
        positions := [((620 : Int), (0 : Int))] }).positions =
      [((0 : Int), (0 : Int))] := by
  rw [C2_move_head_wrap { Snake.initial with
        positions := [((620 : Int), (0 : Int))] } (by decide)]
  decide

/-- C4 counterexample: on a growth tick the body length is NOT unchanged.  A
snake of body length 1 with target length 2 (it has just eaten) has body
length 2 after `move()`, not 1. -/
theorem C4_counterexample :
    ({ Snake.initial with length := 2 } : Snake).positions.length = 1 ∧
    (({ Snake.initial with length := 2 } : Snake).positions.length <
      ({ Snake.initial with length := 2 } : Snake).length) ∧
    (Snake.move { Snake.initial with length := 2 }).positions.length = 2 := by
  decide

/-- C4 (amended): on every `move()` with a nonempty body, if the body length
has not yet reached the target length then the body grows by exactly one cell,
no tail cell is removed, and `last` is untouched; if the body length equals
the target length then exactly one tail cell (the old tail) is removed and
recorded in `last`, leaving the body length unchanged. -/
theorem C4_growth_and_shrink (s : Snake) (hne : s.positions ≠ []) :
    (s.positions.length < s.length →
      (s.move).positions.length = s.positions.length + 1 ∧
      (s.move).last = s.last) ∧
    (s.positions.length = s.length →
      (s.move).positions.length = s.positions.length ∧
      (s.move).last = some (s.positions.getLastD (0, 0))) := by
  rcases hps : s.positions with _ | ⟨hd, tl⟩
  · exact absurd hps hne
  · constructor
    · intro hlt
      unfold Snake.move Snake.get_head_position
      rw [hps]
      rw [if_neg (by simp only [List.length_cons] at hlt ⊢; omega)]
      simp
    · intro heq
      unfold Snake.move Snake.get_head_position
      rw [hps]
      rw [if_pos (by simp only [List.length_cons] at heq ⊢; omega)]
      refine ⟨?_, ?_⟩
      · simp only [List.length_dropLast, List.length_cons]
        omega
      · simp [List.getLastD_cons]

/-- Witness for C4: a growth tick (body 1, target 2) keeps `last` and grows to
2 cells; a steady tick (body 1, target 1) keeps body length 1 and records the
popped old tail `(320, 240)` in `last`. -/
theorem C4_growth_and_shrink_witness :
    ((Snake.move { Snake.initial with length := 2 }).positions.length = 1 + 1 ∧
      (Snake.move { Snake.initial with length := 2 }).last =
        ({ Snake.initial with length := 2 } : Snake).last) ∧
    ((Snake.move Snake.initial).positions.length = 1 ∧
      (Snake.move Snake.initial).last = some ([centerCell].getLastD (0, 0))) := by
  constructor
  · exact (C4_growth_and_shrink { Snake.initial with length := 2 }
      (by decide)).1 (by decide)
  · exact (C4_growth_and_shrink Snake.initial (by decide)).2 (by decide)

/-- C10: `move()` can change only `positions` and `last`: the direction, the
pending direction, the target length, the colour, and the base `position` are
all untouched; and on a growth tick (body still below the target length) even
`last` keeps whatever stale erasure target it held from an earlier tick. -/
theorem C10_move_frame (s : Snake) :
    (s.move).direction = s.direction ∧
    (s.move).next_direction = s.next_direction ∧
    (s.move).length = s.length ∧
    (s.move).body_color = s.body_color ∧
    (s.move).position = s.position ∧
    (s.positions.length + 1 ≤ s.length → (s.move).last = s.last) := by
  unfold Snake.move
  by_cases h : (s.get_head_position :: s.positions).length > s.length
  · rw [if_pos (by simpa using h)]
    simp only [List.length_cons] at h
    exact ⟨rfl, rfl, rfl, rfl, rfl, fun hle => absurd h (by omega)⟩
  · rw [if_neg (by simpa using h)]
    exact ⟨rfl, rfl, rfl, rfl, rfl, fun _ => rfl⟩

/-- Witness for C10: a growth tick on a snake that still holds the stale
erasure target `(300, 240)` leaves that stale value in `last`. -/
theorem C10_move_frame_witness :
    (Snake.move { Snake.initial with
        length := 2
        last := some ((300 : Int), (240 : Int)) }).last =
      ({ Snake.initial with
          length := 2
          last := some ((300 : Int), (240 : Int)) } : Snake).last :=
  (C10_move_frame { Snake.initial with
      length := 2
      last := some ((300 : Int), (240 : Int)) }).2.2.2.2.2 (by decide)

/-- C1 counterexample: a tick on which the snake's head lands exactly on its
tail cell.  The claim demands a reset (and a food relocation), but the loop's
check `head in positions[1:-1]` excludes the tail, so the tick returns the
moved snake untouched: its head `(20, 0)` equals a non-head body cell (the
tail), yet it still has 5 segments and the food kept its old position. -/
theorem C1_counterexample :
    tick tailTrapSnake ((100 : Int), (100 : Int)) [] (fun _ => 0) 0 0 =
      some (tailTrapMoved, ((100 : Int), (100 : Int))) ∧
    tailTrapMoved.get_head_position ∈ tailTrapMoved.positions.drop 1 ∧
    tailTrapMoved.positions.length = 5 ∧
    tailTrapMoved.length = 5 := by
  decide

/-- C1 (amended): on every tick where, after the snake advances, the head cell
equals a body cell of the slice `positions[1:-1]` (strictly between head and
tail) and the head is not on the food, the loop resets the snake on that same
tick and leaves the food position unchanged (no relocation happens on a
reset). -/
theorem C1_reset_on_collision (s : Snake) (apple : Cell) (ks : List Key)
    (rngA : Nat → Nat) (fuel : Nat) (rngR : Nat)
    (hne : (moveStage s ks).get_head_position ≠ apple)
    (hcol : (moveStage s ks).get_head_position ∈
      ((moveStage s ks).positions.drop 1).dropLast) :
    tick s apple ks rngA fuel rngR =
      some ((moveStage s ks).reset rngR, apple) := by
  unfold tick
  rw [if_neg hne]
  unfold collideStage
  rw [if_pos hcol]

/-- Witness for C1: the length-6 snake `neckTrapSnake` collides with an
interior body cell after its move and is reset on the spot, with the food cell
`(100, 100)` untouched. -/
theorem C1_reset_on_collision_witness :
    tick neckTrapSnake ((100 : Int), (100 : Int)) [] (fun _ => 0) 0 7 =
      some ((moveStage neckTrapSnake []).reset 7,
        ((100 : Int), (100 : Int))) :=
  C1_reset_on_collision neckTrapSnake ((100 : Int), (100 : Int)) []
    (fun _ => 0) 0 7 (by decide) (by decide)

/-- Reversing a direction vector twice gives it back. -/
theorem oppositeDir_oppositeDir (d : Cell) : oppositeDir (oppositeDir d) = d := by
  simp [oppositeDir]

/-- Installing a pending direction whose reverse differs from the current
direction yields a `dirOk` state. -/
theorem dirOk_set (s : Snake) (d : Cell) (hg : s.direction ≠ oppositeDir d) :
    dirOk { s with next_direction := some d } := by
  intro hu
  apply hg
  have hu2 : d = oppositeDir s.direction := hu
  have h2 := congrArg oppositeDir hu2
  rw [oppositeDir_oppositeDir] at h2
  exact h2.symm

/-- Each `KEYDOWN` branch preserves `dirOk`: a branch either leaves the snake
unchanged or installs a pending direction whose reverse is, by its guard, not
the current direction. -/
theorem dirOk_handle_key (s : Snake) (k : Key) (h : dirOk s) :
    dirOk (handle_key s k) := by
  cases k with
  | up =>
      by_cases hg : s.direction ≠ DOWN
      · rw [handle_key, if_pos hg]
        refine dirOk_set s UP ?_
        rw [show oppositeDir UP = DOWN from by decide]
        exact hg
      · rw [handle_key, if_neg hg]; exact h
  | down =>
      by_cases hg : s.direction ≠ UP
      · rw [handle_key, if_pos hg]
        refine dirOk_set s DOWN ?_
        rw [show oppositeDir DOWN = UP from by decide]
        exact hg
      · rw [handle_key, if_neg hg]; exact h
  | left =>
      by_cases hg : s.direction ≠ RIGHT
      · rw [handle_key, if_pos hg]
        refine dirOk_set s LEFT ?_
        rw [show oppositeDir LEFT = RIGHT from by decide]
        exact hg
      · rw [handle_key, if_neg hg]; exact h
  | right =>
      by_cases hg : s.direction ≠ LEFT
      · rw [handle_key, if_pos hg]
        refine dirOk_set s RIGHT ?_
        rw [show oppositeDir RIGHT = LEFT from by decide]
        exact hg
      · rw [handle_key, if_neg hg]; exact h
  | other => exact h

/-- Folding `handle_key` over any list of events preserves `dirOk`. -/
theorem dirOk_handle_keys (s : Snake) (ks : List Key) (h : dirOk s) :
    dirOk (handle_keys s ks) := by
  induction ks generalizing s with
  | nil => exact h
  | cons k ks ih => exact ih (handle_key s k) (dirOk_handle_key s k h)

/-- After `update_direction` the pending slot is always empty. -/
theorem update_direction_next (s : Snake) :
    (s.update_direction).next_direction = none := by
  unfold Snake.update_direction
  cases h : s.next_direction with
  | some d => rfl
  | none => rw [h]

/-- Moving does not touch the pending slot. -/
theorem move_next (s : Snake) :
    (s.move).next_direction = s.next_direction := by
  unfold Snake.move
  by_cases h : (s.get_head_position :: s.positions).length > s.length
  · rw [if_pos (by simpa using h)]
  · rw [if_neg (by simpa using h)]

/-- Resetting does not touch the pending slot. -/
theorem reset_next (s : Snake) (r : Nat) :
    (s.reset r).next_direction = s.next_direction := rfl

/-- Every snake a completed `tick` hands back has an empty pending slot:
`update_direction` ran before `move`, and neither `move` nor the eat or
collision branches write to it. -/
theorem tick_next_none (s : Snake) (apple : Cell) (ks : List Key)
    (rngA : Nat → Nat) (fuel : Nat) (rngR : Nat) (g : Snake × Cell)
    (h : tick s apple ks rngA fuel rngR = some g) :
    g.1.next_direction = none := by
  have hstage : (moveStage s ks).next_direction = none := by
    unfold moveStage
    rw [move_next, update_direction_next]
  have hcol : ∀ (s2 : Snake) (a : Cell) (r : Nat),
      s2.next_direction = none → (collideStage s2 a r).1.next_direction = none := by
    intro s2 a r h2
    unfold collideStage
    by_cases hc : s2.get_head_position ∈ (s2.positions.drop 1).dropLast
    · rw [if_pos hc]; rw [reset_next]; exact h2
    · rw [if_neg hc]; exact h2
  unfold tick at h
  by_cases he : (moveStage s ks).get_head_position = apple
  · rw [if_pos he] at h
    dsimp only at h
    split at h
    · cases h
    · rename_i c hr
      cases h
      exact hcol _ c rngR hstage
  · rw [if_neg he] at h
    cases h
    exact hcol _ apple rngR hstage

/-- A snake with an empty pending slot satisfies `dirOk`. -/
theorem dirOk_of_next_none (s : Snake) (h : s.next_direction = none) :
    dirOk s := by
  unfold dirOk
  rw [h]
  trivial

/-- C5: (1) an arrow key whose direction is the exact reverse of the current
active direction is ignored by `handle_keys`; (2) hence `handle_keys` never
creates a pending direction that reverses the active one; (3) in every state
`main` can reach, the pending direction is not the reverse of the active
direction, so a single tick can never flip the snake onto its neck. -/
theorem C5_no_reverse_pending :
    (∀ (s : Snake) (k : Key) (d : Cell), keyDirection k = some d →
      s.direction = oppositeDir d → handle_key s k = s) ∧
    (∀ (s : Snake) (ks : List Key), dirOk s → dirOk (handle_keys s ks)) ∧
    (∀ g : Snake × Cell, Reachable g → dirOk g.1) := by
  refine ⟨?_, dirOk_handle_keys, ?_⟩
  · intro s k d hk hd
    cases k with
    | up =>
        cases hk
        rw [handle_key, if_neg (by rw [hd]; decide)]
    | down =>
        cases hk
        rw [handle_key, if_neg (by rw [hd]; decide)]
    | left =>
        cases hk
        rw [handle_key, if_neg (by rw [hd]; decide)]
    | right =>
        cases hk
        rw [handle_key, if_neg (by rw [hd]; decide)]
    | other => cases hk
  · intro g hg
    induction hg with
    | init stream fuel c h => exact dirOk_of_next_none _ rfl
    | step ks rngA fuel rngR hg h ih =>
        exact dirOk_of_next_none _ (tick_next_none _ _ _ _ _ _ _ h)

/-- Witness for C5: pressing the up arrow while moving `DOWN` is ignored; a
left-then-up burst from the initial state leaves a legal pending direction;
and the initial state (with a concretely relocated apple) satisfies the
invariant. -/
theorem C5_no_reverse_pending_witness :
    handle_key { Snake.initial with direction := DOWN } Key.up =
      { Snake.initial with direction := DOWN } ∧
    dirOk (handle_keys Snake.initial [Key.left, Key.up]) ∧
    dirOk Snake.initial := by
  refine ⟨?_, ?_, ?_⟩
  · exact C5_no_reverse_pending.1 _ Key.up UP rfl (by decide)
  · exact C5_no_reverse_pending.2.1 Snake.initial [Key.left, Key.up] (by decide)
  · exact C5_no_reverse_pending.2.2 (Snake.initial, ((0 : Int), (20 : Int)))
      (Reachable.init (fun i => i) 1 ((0 : Int), (20 : Int)) (by decide))

/-- C6 counterexample (code bug): with occupied set `[(0, 0)]` and draws
`0, 0, 0, 24`, `Apple.randomize_position` first draws the occupied `(0, 0)`,
then resamples `(0, 480)` and returns it — a cell whose y-coordinate equals
`SCREEN_HEIGHT`, outside the board's `[0, 480)` range (the resampling branch
scales `randint(0, GRID_HEIGHT)` draws without the modulus the first draw
applies). -/
theorem C6_food_out_of_bounds :
    randomize_position [((0 : Int), (0 : Int))] outOfBoundsStream 1 =
      some ((0 : Int), (480 : Int)) ∧
    ¬((480 : Int) < SCREEN_HEIGHT) := by
  decide

/-- Every cell the resampling branch can produce lies in `blockedSet`. -/
theorem resample_mem_blockedSet (r1 r2 : Nat) :
    resampleCandidate r1 r2 ∈ blockedSet := by
  unfold resampleCandidate blockedSet randintR
  simp only [List.mem_flatMap, List.mem_map, List.mem_range]
  refine ⟨r1 % 25, by omega, r2 % 25, by omega, ?_⟩
  simp only [Prod.mk.injEq]
  constructor <;> · push_cast; ring

set_option maxRecDepth 8000 in
/-- C9 (code bug): the rejection loop of `Apple.randomize_position` is NOT
guaranteed to terminate whenever some board cell is free.  The occupied set
`blockedSet` leaves the board cell `(500, 0)` (and every board cell with
x > 480) free, yet because the resampling branch only ever produces cells of
`blockedSet`, the loop returns nothing for ANY draw stream and ANY number of
rounds once its current candidate is occupied. -/
theorem C9_rejection_loop_stuck :
    (((500 : Int), (0 : Int)) ∉ blockedSet) ∧
    (∀ (stream : Nat → Nat) (i fuel : Nat) (cur : Cell),
      cur ∈ blockedSet →
      randomizeLoop blockedSet stream i fuel cur = none) ∧
    (∀ fuel : Nat,
      randomize_position blockedSet (fun _ => 0) fuel = none) := by
  have hloop : ∀ (stream : Nat → Nat) (fuel i : Nat) (cur : Cell),
      cur ∈ blockedSet →
      randomizeLoop blockedSet stream i fuel cur = none := by
    intro stream fuel
    induction fuel with
    | zero =>
        intro i cur hmem
        simp [randomizeLoop, hmem]
    | succ n ih =>
        intro i cur hmem
        rw [randomizeLoop, if_neg (by simpa using hmem)]
        exact ih (i + 2) _ (resample_mem_blockedSet _ _)
  refine ⟨by decide, fun stream i fuel cur h => hloop stream fuel i cur h, ?_⟩
  intro fuel
  exact hloop (fun _ => 0) fuel 2 _ (by decide)

set_option maxRecDepth 8000 in
/-- Witness for C9: concretely, from the occupied candidate `(0, 0)` the loop
makes no progress in 3 rounds on the all-zero stream, even though the board
cell `(500, 0)` is unoccupied. -/
theorem C9_rejection_loop_stuck_witness :
    randomizeLoop blockedSet (fun _ => 0) 2 3 ((0 : Int), (0 : Int)) = none ∧
    ((500 : Int), (0 : Int)) ∉ blockedSet :=
  ⟨C9_rejection_loop_stuck.2.1 (fun _ => 0) 2 3 ((0 : Int), (0 : Int))
      (by decide),
    C9_rejection_loop_stuck.1⟩

/-- C7 counterexample: `reset()` does NOT clear the pending direction or the
`last` erasure cell — both survive a reset unchanged. -/
theorem C7_counterexample :
    (resetProbe.reset 0).next_direction = some UP ∧
    (resetProbe.reset 0).last = some ((0 : Int), (0 : Int)) ∧
    ¬((resetProbe.reset 0).next_direction = none ∧
      (resetProbe.reset 0).last = none) := by
  decide

/-- C7 (amended): `reset()` truncates the snake to the single cell
`self.position` (the board centre on every snake the program builds) and
redraws the direction from the four cardinal options; the pending direction
and `last` are left exactly as they were. -/
theorem C7_reset_behavior (s : Snake) (r : Nat) (hc : s.position = centerCell) :
    (s.reset r).length = 1 ∧
    (s.reset r).positions = [centerCell] ∧
    (s.reset r).direction ∈ [UP, DOWN, RIGHT, LEFT] ∧
    (s.reset r).next_direction = s.next_direction ∧
    (s.reset r).last = s.last := by
  refine ⟨rfl, by rw [Snake.reset, hc], ?_, rfl, rfl⟩
  have h4 : r % 4 = 0 ∨ r % 4 = 1 ∨ r % 4 = 2 ∨ r % 4 = 3 := by omega
  rcases h4 with h | h | h | h <;> simp [Snake.reset, choiceDirection, h]

/-- Witness for C7: resetting the initial snake with draw 1 yields a
single-segment snake at the centre with direction `DOWN` (the second option),
pending direction and `last` untouched. -/
theorem C7_reset_behavior_witness :
    (Snake.initial.reset 1).length = 1 ∧
    (Snake.initial.reset 1).positions = [centerCell] ∧
    (Snake.initial.reset 1).direction ∈ [UP, DOWN, RIGHT, LEFT] ∧
    (Snake.initial.reset 1).next_direction = Snake.initial.next_direction ∧
    (Snake.initial.reset 1).last = Snake.initial.last :=
  C7_reset_behavior Snake.initial 1 rfl

/-- C8 counterexample: the initial direction is not random — `Snake.__init__`
draws nothing and always sets `RIGHT` (see `Snake.initial`, which consumes no
draw stream), so the three other cardinal directions can never occur at game
start. -/
theorem C8_counterexample :
    Snake.initial.direction = RIGHT ∧
    RIGHT ≠ UP ∧ RIGHT ≠ DOWN ∧ RIGHT ≠ LEFT := by
  decide

/-- C8 (amended): at game start the snake has length 1 (a single body cell),
sits at the board centre `(320, 240)`, and its initial direction is always
`RIGHT` (deterministic, not randomly chosen). -/
theorem C8_initial_state :
    Snake.initial.length = 1 ∧
    Snake.initial.positions = [centerCell] ∧
    centerCell = ((320 : Int), (240 : Int)) ∧
    Snake.initial.direction = RIGHT ∧
    Snake.initial.next_direction = none ∧
    Snake.initial.last = none := by
  decide
